import Mathlib

/-!
Verification development for the AIConsumptionTracker core (rust/aic_core).

Shallow embedding conventions:
* Rust `f64` money/percentage arithmetic is modelled over `ℚ`; the claims
  settled here depend only on sign/order/`min`, which IEEE rounding preserves
  at the concrete inputs used.
* Fallible Rust paths that can panic are modelled with `Option` (`none` =
  panic); byte-index string slicing is modelled at the UTF-8 byte level.
* Code that performs I/O (HTTP, `gcloud`, config persistence) is modelled by
  passing the outcome of the external exchange as an explicit argument, so a
  provider's dependence (or non-dependence) on the network is visible as
  dependence on that argument.
* Modules of the repository that are not part of the available source
  (`models.rs`, `github_auth.rs`, `config.rs`) are marked
  `Modelled from the spec:` in their doc comments.
-/

namespace AIC

/-- Modelled from the spec: `models.rs` is not in the available source.
`PaymentType` per spec §3 (`UsageBased`, `Credits`, `Quota`); the default is
`UsageBased` per the `test_payment_type_default` test in `lib.rs`. -/
inductive PaymentType
  | UsageBased
  | Credits
  | Quota
deriving DecidableEq, Repr

/-- Modelled from the spec: `models.rs` is not in the available source.
`ProviderUsage` (the spec's `UsageRecord`) with the fields the in-source
providers set; defaults per the `test_provider_usage_default` and
`provider_usage_default_values` tests (`usage_unit = "USD"`,
`is_available = true`, everything else zero/empty/none). -/
structure ProviderUsage where
  provider_id : String
  provider_name : String
  usage_percentage : ℚ
  remaining_percentage : Option ℚ
  cost_used : ℚ
  cost_limit : ℚ
  payment_type : PaymentType
  usage_unit : String
  is_quota_based : Bool
  is_available : Bool
  description : String
  next_reset_time : Option String
deriving DecidableEq, Repr

/-- Default `ProviderUsage` (Rust `ProviderUsage::default()`), reconstructed
from the default-value tests in `lib.rs` and `provider_tests.rs`. -/
def defaultUsage : ProviderUsage :=
  { provider_id := ""
    provider_name := ""
    usage_percentage := 0
    remaining_percentage := none
    cost_used := 0
    cost_limit := 0
    payment_type := .UsageBased
    usage_unit := "USD"
    is_quota_based := false
    is_available := true
    description := ""
    next_reset_time := none }

/-- Modelled from the spec: `models.rs` is not in the available source.
`ProviderConfig` per spec §3 with the fields the in-source code reads
(`provider_id`, `api_key`, `base_url`, `show_in_tray`, ...); defaults per the
`test_provider_config_default` test. -/
structure ProviderConfig where
  provider_id : String
  api_key : String
  config_type : String
  payment_type : PaymentType
  limit : Option ℚ
  base_url : Option String
  show_in_tray : Bool
  description : Option String
deriving DecidableEq, Repr

/-- Default `ProviderConfig` (Rust `ProviderConfig::default()`), per the
`test_provider_config_default` test (`api_key` empty, `config_type`
`"pay-as-you-go"`, `limit = Some(100.0)`). -/
def defaultConfig : ProviderConfig :=
  { provider_id := ""
    api_key := ""
    config_type := "pay-as-you-go"
    payment_type := .UsageBased
    limit := some 100
    base_url := none
    show_in_tray := false
    description := none }

/-! ## privacy.rs — byte-level model

Rust `String`s are UTF-8 byte vectors and `privacy.rs` slices them at byte
indices, so the masking functions are modelled over `List Nat` (the UTF-8
bytes).  A result of `none` models a Rust panic (byte slicing off a char
boundary).  ASCII byte values used below: `'*' = 42`, `'.' = 46`, `'@' = 64`,
`' ' = 32`. -/

/-- Substring test (Rust `str::contains` / pattern search), generic over the
element type. -/
def containsSub {α : Type} [DecidableEq α] : List α → List α → Bool
  | [], pat => pat.isEmpty
  | s@(_ :: t), pat => pat.isPrefixOf s || containsSub t pat

/-- Recursion core of `replaceSub` for a non-empty pattern.  The fuel is
structural bookkeeping only: every step consumes at least one element of
`s`, so with initial fuel `s.length` the `0` case is never the one that
truncates a scan. -/
def replaceSubAux {α : Type} [DecidableEq α] (pat rep : List α) :
    Nat → List α → List α
  | 0, s => s
  | fuel + 1, s =>
    if pat.isPrefixOf s then rep ++ replaceSubAux pat rep fuel (s.drop pat.length)
    else
      match s with
      | [] => []
      | b :: t => b :: replaceSubAux pat rep fuel t

/-- Rust `String::replace(pat, rep)`: replace all non-overlapping occurrences,
leftmost first.  An empty pattern matches at every char boundary, which for
the byte model inserts `rep` around every byte. -/
def replaceSub {α : Type} [DecidableEq α] (s pat rep : List α) : List α :=
  if pat = [] then rep ++ s.foldr (fun b acc => b :: (rep ++ acc)) []
  else replaceSubAux pat rep s.length s

/-- UTF-8 continuation byte test (`0x80 ≤ b < 0xC0`). -/
def isContinuation (b : Nat) : Bool := 128 ≤ b && b < 192

/-- Rust `str::is_char_boundary` at the byte level: index `0` and the length
are boundaries; an in-range index is a boundary iff the byte there is not a
continuation byte; past-the-end indices are not boundaries. -/
def is_char_boundary (s : List Nat) (i : Nat) : Bool :=
  if i = 0 then true
  else if i = s.length then true
  else
    match s.get? i with
    | some b => !(isContinuation b)
    | none => false

/-- Rust slice `&s[..i]`: `none` models the panic when `i` is not a char
boundary. -/
def sliceTo (s : List Nat) (i : Nat) : Option (List Nat) :=
  if is_char_boundary s i then some (s.take i) else none

/-- Rust slice `&s[i..]`: `none` models the panic when `i` is not a char
boundary. -/
def sliceFrom (s : List Nat) (i : Nat) : Option (List Nat) :=
  if is_char_boundary s i then some (s.drop i) else none

/-- Model of `privacy.rs::mask_string`: length-preserving generic mask.  Lengths are
byte lengths, as in the source; the two byte slices can panic (`none`). -/
def mask_string (s : List Nat) : Option (List Nat) :=
  if s.length ≤ 1 then some [42]
  else if s.length = 2 then some [42, 42]
  else do
    let first ← sliceTo s 1
    let last ← sliceFrom s (s.length - 1)
    pure (first ++ List.replicate (s.length - 2) 42 ++ last)

/-- Rust `str::split('@')` at the byte level (`'@' = 64` never occurs inside a
multi-byte UTF-8 sequence, so byte-level splitting agrees with Rust). -/
def splitOnByte (b : Nat) : List Nat → List (List Nat)
  | [] => [[]]
  | c :: t =>
    if c = b then [] :: splitOnByte b t
    else
      match splitOnByte b t with
      | [] => [[c]]
      | h :: r => (c :: h) :: r

/-- Model of `privacy.rs::mask_single_email`: split on `'@'`; exactly two parts → mask
the local part (≤ 2 bytes → that many asterisks, else first byte slice +
`"..."` + last byte slice); otherwise fall back to `mask_string`. -/
def mask_single_email (email : List Nat) : Option (List Nat) :=
  match splitOnByte 64 email with
  | [locl, domain] =>
    if locl.length ≤ 2 then
      some (List.replicate locl.length 42 ++ 64 :: domain)
    else do
      let first ← sliceTo locl 1
      let last ← sliceFrom locl (locl.length - 1)
      pure (first ++ [46, 46, 46] ++ last ++ 64 :: domain)
  | _ => mask_string email

/-- ASCII whitespace byte (the White_Space code points below 0x80:
TAB, LF, VT, FF, CR, SPACE).  `str::split_whitespace` also splits on a few
multi-byte Unicode spaces; no input considered in the theorems below
contains those. -/
def isWsByte (b : Nat) : Bool := b = 9 || b = 10 || b = 11 || b = 12 || b = 13 || b = 32

/-- Helper for `split_whitespace`: accumulate the current word (reversed). -/
def splitWsAux : List Nat → List Nat → List (List Nat)
  | [], acc => if acc = [] then [] else [acc.reverse]
  | b :: t, acc =>
    if isWsByte b then
      if acc = [] then splitWsAux t [] else acc.reverse :: splitWsAux t []
    else splitWsAux t (b :: acc)

/-- Rust `str::split_whitespace` at the byte level. -/
def split_whitespace (s : List Nat) : List (List Nat) := splitWsAux s []

/-- Model of `privacy.rs::mask_emails_in_string`: start from the whole string, and for
each whitespace-separated word containing both `'@'` and `'.'`, globally
replace that word by its masked form in the running result. -/
def mask_emails_in_string (s : List Nat) : Option (List Nat) :=
  (split_whitespace s).foldlM
    (fun result w =>
      if w.contains 64 && w.contains 46 then
        (mask_single_email w).map (fun masked => replaceSub result w masked)
      else pure result)
    s

/-- The fall-through body of `mask_content` once the account-name rule did not
fire: email masking if the text contains `'@'`, else the generic mask. -/
def mask_content_body (s : List Nat) : Option (List Nat) :=
  if s.contains 64 then mask_emails_in_string s else mask_string s

/-- Model of `privacy.rs::mask_content`.  Outer `Option` models a panic anywhere inside
(`none` = panic); the inner `Option (List Nat)` is the Rust
`Option<String>` result. -/
def mask_content (input account_name : Option (List Nat)) :
    Option (Option (List Nat)) :=
  match input with
  | none => some none
  | some s =>
    if s = [] then some (some s)
    else
      match account_name with
      | some name =>
        if containsSub s name then
          ((mask_string name).map (fun m => replaceSub s name m)).map some
        else (mask_content_body s).map some
      | none => (mask_content_body s).map some

/-- Byte list of an ASCII string literal (used only on ASCII literals, where
`Char.toNat` is the UTF-8 byte). -/
def asciiBytes (s : String) : List Nat := s.data.map Char.toNat

/-- Follows the spec's words (PrivacyMasker rule 3), for comparison with the
source functions: mask only the local part before the `'@'` of a token
(≤ 2 → asterisks matching the local length, else first char + `"..."` +
last char), leaving the domain untouched. -/
def spec_mask_token (w : List Nat) : List Nat :=
  let locl := w.takeWhile (fun b => b ≠ 64)
  let rest := w.dropWhile (fun b => b ≠ 64)
  if locl.length ≤ 2 then List.replicate locl.length 42 ++ rest
  else locl.take 1 ++ [46, 46, 46] ++ locl.drop (locl.length - 1) ++ rest

/-- Follows the spec's words (PrivacyMasker rule 3), for comparison with the
source `mask_emails_in_string`: split on whitespace, mask each token
containing both `'@'` and `'.'` in its local part only, leave other tokens
untouched, reassemble with (single-space) spacing. -/
def spec_mask_emails (s : List Nat) : List Nat :=
  List.intercalate [32]
    ((split_whitespace s).map fun w =>
      if w.contains 64 && w.contains 46 then spec_mask_token w else w)

/-! ## Display formatting abbreviations

The providers put `format!`-rendered numbers into `description` fields.  No
claim depends on the rendered digits, so Rust's decimal formatting of `f64`
is abbreviated by printing the exact rational. -/

/-- Display abbreviation for Rust `format!("{:.2}", x)` and friends. -/
def fmtQ (q : ℚ) : String := toString q

/-! ## providers/codex.rs -/

namespace CodexProvider

def provider_id : String := "codex"

/-- Model of `CodexProvider::get_usage`: with an empty `api_key` it returns the empty
list (no record at all); otherwise one static always-available record.  It
never touches the network (no network argument). -/
def get_usage (config : ProviderConfig) : List ProviderUsage :=
  if config.api_key = "" then []
  else
    [{ defaultUsage with
        provider_id := provider_id
        provider_name := "Codex"
        is_available := true
        description :=
          "Codex usage tracking (Implementation pending specific API details)" }]

end CodexProvider

/-! ## providers/cloud_code.rs -/

namespace CloudCodeProvider

/-- Outcome of running `gcloud auth print-access-token`:
`commandError` = the `Command::output` call itself failed (gcloud missing),
`output success stderrTrimmed` = the command ran with the given exit status
and (trimmed) stderr. -/
inductive GcloudOutcome
  | commandError
  | output (success : Bool) (stderrTrimmed : String)
deriving DecidableEq, Repr

def provider_id : String := "cloud-code"

/-- Model of `CloudCodeProvider::get_usage`: with a non-empty `api_key` it reports
connected without consulting `gcloud`; with an empty `api_key` it runs the
external `gcloud` command and reports its outcome. -/
def get_usage (config : ProviderConfig) (gcloud : GcloudOutcome) :
    List ProviderUsage :=
  let st : Bool × String :=
    if config.api_key = "" then
      match gcloud with
      | .output true _ => (true, "Connected (gcloud)")
      | .output false err => (false, "gcloud Error: " ++ err)
      | .commandError => (false, "gcloud not found")
    else (true, "Configured (Key present)")
  [{ defaultUsage with
      provider_id := provider_id
      provider_name := "Cloud Code (Google)"
      is_available := st.1
      usage_percentage := 0
      is_quota_based := false
      payment_type := .UsageBased
      description := st.2
      usage_unit := "Status" }]

end CloudCodeProvider

/-! ## providers/deepseek.rs -/

namespace DeepSeekProvider

/-- One entry of `balance_infos` (the fields the code reads). -/
structure BalanceInfo where
  currency : String
  total_balance : ℚ
deriving DecidableEq, Repr

/-- Result of deserializing the response as `DeepSeekBalanceResponse`. -/
inductive Body
  | parseError
  | parsed (is_available : Bool) (balance_infos : Option (List BalanceInfo))
deriving DecidableEq, Repr

/-- Outcome of the HTTP exchange with `api.deepseek.com`:
`connError` = `send()` failed; `response ok status body` = a response whose
status `is_success()` equals `ok` and displays as `status`. -/
inductive Net
  | connError
  | response (ok : Bool) (status : String) (body : Body)
deriving DecidableEq, Repr

def provider_id : String := "deepseek"

def record (avail : Bool) (desc : String) : ProviderUsage :=
  { defaultUsage with
      provider_id := provider_id
      provider_name := "DeepSeek"
      is_available := avail
      description := desc }

/-- Model of `DeepSeekProvider::get_usage`, branch for branch.  Note that the
non-success HTTP status branch sets `is_available := true` in the source. -/
def get_usage (config : ProviderConfig) (net : Net) : List ProviderUsage :=
  if config.api_key = "" then [record false "API Key missing"]
  else
    match net with
    | .connError => [record false "Check failed"]
    | .response ok status body =>
      if !ok then
        [{ record true ("API Error (" ++ status ++ ")") with
            usage_percentage := 0
            is_quota_based := false }]
      else
        match body with
        | .parseError => [record false "Parsing failed"]
        | .parsed avail infos =>
          if !avail then [record false "Account unavailable or parsing failed"]
          else
            match infos with
            | some (main_balance :: _) =>
              let currency_symbol :=
                if main_balance.currency = "CNY" then "¥" else "$"
              [{ defaultUsage with
                  provider_id := provider_id
                  provider_name := "DeepSeek"
                  is_available := true
                  usage_percentage := 0
                  cost_used := 0
                  cost_limit := 0
                  usage_unit := "Currency"
                  is_quota_based := false
                  payment_type := .Credits
                  description :=
                    "Balance: " ++ currency_symbol ++ fmtQ main_balance.total_balance }]
            | some [] => [record true "No balance info found"]
            | none => [record true "No balance info found"]

end DeepSeekProvider

/-! ## providers/minimax.rs -/

namespace MinimaxProvider

/-- Result of deserializing the response as `MinimaxResponse`; the payload is
`(tokens_used, tokens_limit)`. -/
inductive Body
  | parseError
  | parsed (usage : Option (ℚ × ℚ))
deriving DecidableEq, Repr

/-- Outcome of the HTTP exchange (as for DeepSeek). -/
inductive Net
  | connError
  | response (ok : Bool) (status : String) (body : Body)
deriving DecidableEq, Repr

def provider_id : String := "minimax"

def record (avail : Bool) (desc : String) : ProviderUsage :=
  { defaultUsage with
      provider_id := provider_id
      provider_name := "MiniMax (China)"
      is_available := avail
      description := desc }

/-- Model of `minimax.rs::format_tokens` (digit rendering abbreviated by `fmtQ`). -/
def format_tokens (tokens : ℚ) : String :=
  if tokens ≥ 1000000 then fmtQ (tokens / 1000000) ++ "M"
  else if tokens ≥ 1000 then fmtQ (tokens / 1000) ++ "K"
  else fmtQ tokens

/-- The record built on the successful-parse path of
`MinimaxProvider::get_usage` (source lines 75–103): utilization is
`used/total*100` when `total > 0`, else `0`, then `.min(100.0)`. -/
def success_record (used total : ℚ) : ProviderUsage :=
  let utilization := if total > 0 then used / total * 100 else 0
  { defaultUsage with
      provider_id := provider_id
      provider_name := "MiniMax (China)"
      usage_percentage := min utilization 100
      cost_used := used
      cost_limit := total
      payment_type := .UsageBased
      usage_unit := "Tokens"
      is_quota_based := false
      description :=
        format_tokens used ++ " tokens used" ++
          (if total > 0 then " / " ++ format_tokens total ++ " limit" else "") }

/-- Model of `MinimaxProvider::get_usage`, branch for branch. -/
def get_usage (config : ProviderConfig) (net : Net) : List ProviderUsage :=
  if config.api_key = "" then [record false "API Key missing"]
  else
    match net with
    | .connError => [record false "Connection Failed"]
    | .response ok status body =>
      if !ok then [record false ("API Error (" ++ status ++ ")")]
      else
        match body with
        | .parseError => [record false "Failed to parse response"]
        | .parsed none => [record false "Invalid response format"]
        | .parsed (some (used, total)) => [success_record used total]

end MinimaxProvider

/-! ## providers/synthetic.rs -/

namespace SyntheticProvider

/-- The `subscription` object of the Synthetic response. -/
structure Sub where
  limit : ℚ
  requests : ℚ
  renews_at : Option String
deriving DecidableEq, Repr

/-- Result of deserializing the response as `SyntheticResponse`. -/
inductive Body
  | parseError
  | parsed (subscription : Option Sub)
deriving DecidableEq, Repr

/-- Outcome of the HTTP exchange (as for DeepSeek). -/
inductive Net
  | connError
  | response (ok : Bool) (status : String) (body : Body)
deriving DecidableEq, Repr

def provider_id : String := "synthetic"

def record (avail : Bool) (desc : String) : ProviderUsage :=
  { defaultUsage with
      provider_id := provider_id
      provider_name := "Synthetic"
      is_available := avail
      description := desc }

/-- Modelled from the spec: chrono's RFC-3339 parser is an external library
(not repository code); it is modelled as accepting every timestamp string
unchanged.  No claim depends on the parse. -/
def parse_rfc3339 (s : String) : Option String := some s

/-- The record built on the successful-parse path of
`SyntheticProvider::get_usage` (source lines 74–105). -/
def success_record (sub : Sub) : ProviderUsage :=
  let total := sub.limit
  let used := sub.requests
  let utilization := if total > 0 then used / total * 100 else 0
  let remaining_percent := 100 - min utilization 100
  { defaultUsage with
      provider_id := provider_id
      provider_name := "Synthetic"
      usage_percentage := min utilization 100
      remaining_percentage := some remaining_percent
      cost_used := used
      cost_limit := total
      payment_type := .Quota
      usage_unit := "Quota %"
      is_quota_based := true
      description := fmtQ utilization ++ "% used"
      next_reset_time := sub.renews_at.bind parse_rfc3339 }

/-- Model of `SyntheticProvider::get_usage`, branch for branch. -/
def get_usage (config : ProviderConfig) (net : Net) : List ProviderUsage :=
  if config.api_key = "" then [record false "API Key not found"]
  else
    match net with
    | .connError => [record false "Connection Failed"]
    | .response ok status body =>
      if !ok then [record false ("API Error (" ++ status ++ ")")]
      else
        match body with
        | .parseError => [record false "Failed to parse response"]
        | .parsed none => [record false "No subscription data found"]
        | .parsed (some sub) => [success_record sub]

end SyntheticProvider

/-! ## providers/generic_payg.rs -/

namespace GenericPayAsYouGoProvider

/-- Model of `str::contains` on `String`s (substring search over the char list). -/
def strContains (s pat : String) : Bool := containsSub s.data pat.data

/-- Rust `trim_end_matches('/')`. -/
def trimEndSlashes (u : String) : String :=
  ⟨(u.data.reverse.dropWhile (fun c => c = '/')).reverse⟩

/-- Which of the three serde formats the response body deserialized as, with
the fields the code reads.  `opencodeFormat` carries
`(total_credits, used_credits)`; `syntheticFormat` carries
`(limit, requests, renewsAt)`; `kimiFormat` carries `available_balance`.
The cascade "try A, else B, else C, else unknown" of the source is
represented by which constructor the body oracle yields. -/
inductive BodyFormat
  | opencodeFormat (data : Option (ℚ × ℚ))
  | syntheticFormat (subscription : Option (ℚ × ℚ × Option String))
  | kimiFormat (data : Option ℚ)
  | unknownFormat
deriving DecidableEq, Repr

/-- The body of a successful-status response:
`readError` = `response.text()` failed; `notFound` = the text trims to
`"Not Found"` (case-insensitively); `parsedAs fmt` = the serde cascade
outcome. -/
inductive BodyText
  | readError
  | notFound
  | parsedAs (fmt : BodyFormat)
deriving DecidableEq, Repr

/-- Outcome of the HTTP exchange. -/
inductive Net
  | connError
  | response (ok : Bool) (status : String) (body : BodyText)
deriving DecidableEq, Repr

/-- A degraded record for this provider: both name fields are the configured
`provider_id`. -/
def record (config : ProviderConfig) (avail : Bool) (desc : String) :
    ProviderUsage :=
  { defaultUsage with
      provider_id := config.provider_id
      provider_name := config.provider_id
      is_available := avail
      description := desc }

/-- URL selection (source lines 73–95): the configured `base_url`, else a
well-known URL keyed on `provider_id`; `none` = the early
"Configuration Required" return. -/
def choose_url (config : ProviderConfig) : Option String :=
  match config.base_url with
  | some u => some u
  | none =>
    if strContains config.provider_id "opencode" then
      some "https://api.opencode.ai/v1/credits"
    else if config.provider_id = "minimax" then
      some "https://api.minimax.chat/v1/user/usage"
    else if config.provider_id = "xiaomi" then
      some "https://api.xiaomimimo.com/v1/user/balance"
    else if strContains config.provider_id "kilocode" || config.provider_id = "kilo" then
      some "https://api.kilocode.ai/v1/credits"
    else none

/-- URL normalization (source lines 97–114): prepend `https://` when the
scheme is missing, then append a `/credits`-style suffix when none of the
known endpoint markers occur. -/
def normalize_url (u0 : String) : String :=
  let u := if !u0.startsWith "http" then "https://" ++ u0 else u0
  if !u.endsWith "/credits" && !strContains u "/quota" && !strContains u "billing"
      && !strContains u "usage" && !strContains u "balance" then
    if u.endsWith "/v1" then u ++ "/credits"
    else trimEndSlashes u ++ "/v1/credits"
  else u

/-- Display-name computation (source lines 220–242): for the generic id,
derive a name from the URL; then title-case on `-`/`.`/space. -/
def display_name (config : ProviderConfig) (url : String) : String :=
  let base :=
    if config.provider_id = "generic-pay-as-you-go" then
      ((url.replace "https://" "").replace "/v1/credits" "").replace "/credits" ""
    else config.provider_id
  String.intercalate " "
    ((base.split fun c => c = '-' || c = '.' || c = ' ').map fun word =>
      match word.data with
      | [] => ""
      | first :: chars => String.mk (first.toUpper :: chars.map Char.toLower))

/-- The values extracted by the format cascade (source lines 158–204):
`(total, used, payment_type, next_reset_time)`; `none` = the
"Unknown response format" early return. -/
def parse_formats (fmt : BodyFormat) :
    Option (ℚ × ℚ × PaymentType × Option String) :=
  match fmt with
  | .opencodeFormat (some (total_credits, used_credits)) =>
    some (total_credits, used_credits, .Credits, none)
  | .opencodeFormat none => some (0, 0, .UsageBased, none)
  | .syntheticFormat (some (lim, requests, renews_at)) =>
    some (lim, requests, .Quota, renews_at.bind SyntheticProvider.parse_rfc3339)
  | .syntheticFormat none => some (0, 0, .UsageBased, none)
  | .kimiFormat (some available_balance) =>
    some (available_balance, 0, .Credits, none)
  | .kimiFormat none => some (0, 0, .UsageBased, none)
  | .unknownFormat => none

/-- The record built on the successful-parse path (source lines 206–256):
utilization is `used/total*100` when `total > 0`, else `0`, then
`.min(100.0)`. -/
def success_record (config : ProviderConfig) (url : String)
    (total used : ℚ) (payment_type : PaymentType)
    (next_reset_time : Option String) : ProviderUsage :=
  let utilization := if total > 0 then used / total * 100 else 0
  let reset_str :=
    match next_reset_time with
    | some t => " (Resets: (" ++ t ++ "))"
    | none => ""
  { defaultUsage with
      provider_id := config.provider_id
      provider_name := display_name config url
      usage_percentage := min utilization 100
      cost_used := used
      cost_limit := total
      payment_type := payment_type
      usage_unit := "Credits"
      is_quota_based := false
      description := fmtQ used ++ " / " ++ fmtQ total ++ " credits" ++ reset_str
      next_reset_time := next_reset_time }

/-- Model of `GenericPayAsYouGoProvider::get_usage`, branch for branch.  Note that the
`"Not Found"` body branch sets `is_available := true` in the source. -/
def get_usage (config : ProviderConfig) (net : Net) : List ProviderUsage :=
  if config.api_key = "" then [record config false "API Key not found"]
  else
    match choose_url config with
    | none =>
      [record config false "Configuration Required (Add 'base_url' to auth.json)"]
    | some u0 =>
      let url := normalize_url u0
      match net with
      | .connError => [record config false "Connection Failed"]
      | .response ok status body =>
        if !ok then [record config false ("API Error (" ++ status ++ ")")]
        else
          match body with
          | .readError => [record config false "Failed to read response"]
          | .notFound => [record config true "Not Found (Invalid Key/URL)"]
          | .parsedAs fmt =>
            match parse_formats fmt with
            | none => [record config false "Unknown response format"]
            | some (total, used, payment_type, next_reset_time) =>
              [success_record config url total used payment_type next_reset_time]

end GenericPayAsYouGoProvider

/-! ## github_auth.rs (not in the available source) and auth_manager.rs -/

/-- Type `TokenPollResult` (re-exported by `lib.rs`; variants per spec §3). -/
inductive TokenPollResult
  | Token (t : String)
  | Pending
  | SlowDown
  | Expired
  | AccessDenied
  | Error (msg : String)
deriving DecidableEq, Repr

namespace GitHubAuthService

/-- Modelled from the spec: `github_auth.rs` is not in the available source.
The in-memory token state of `GitHubAuthService` (spec §4.4: "pure in-memory
state accessors") is an optional current token. -/
def is_authenticated (token : Option String) : Bool := token.isSome

/-- Modelled from the spec: in-memory accessor (spec §4.4). -/
def get_current_token (token : Option String) : Option String := token

/-- Modelled from the spec: `initializeToken` stores the given token in
memory (spec §4.4). -/
def initialize_token (_old : Option String) (t : String) : Option String :=
  some t

/-- Modelled from the spec: `logout()` clears memory only (spec §4.4). -/
def logout_memory (_token : Option String) : Option String := none

/-- A terminal failure of the device-flow polling loop (spec §4.4/§7:
expired vs. denied vs. any other protocol/transport error). -/
inductive FlowFailure
  | expired
  | accessDenied
  | protocolError (msg : String)
deriving DecidableEq, Repr

/-- Terminal outcome of `completeDeviceFlow`. -/
inductive FlowOutcome
  | success (t : String)
  | failure (r : FlowFailure)
deriving DecidableEq, Repr

/-- Modelled from the spec: one iteration of `completeDeviceFlow`'s loop
(spec §4.4): `Pending` continues with the interval unchanged; `SlowDown`
continues with the interval increased by the fixed +5s step; `Token` is
terminal success; `Expired`/`AccessDenied`/`Error` are terminal failures. -/
def poll_step (interval : Nat) : TokenPollResult → Nat ⊕ FlowOutcome
  | .Pending => .inl interval
  | .SlowDown => .inl (interval + 5)
  | .Token t => .inr (.success t)
  | .Expired => .inr (.failure .expired)
  | .AccessDenied => .inr (.failure .accessDenied)
  | .Error msg => .inr (.failure (.protocolError msg))

/-- Modelled from the spec: `github_auth.rs` is not in the available source.
`completeDeviceFlow`'s polling loop (spec §4.4), driven over the sequence of
`pollOnce` results; returns the terminal outcome (or `none` when the given
poll sequence ran out without reaching a terminal result) together with the
interval in effect at termination. -/
def complete_device_flow :
    List TokenPollResult → Nat → Option FlowOutcome × Nat
  | [], interval => (none, interval)
  | r :: rs, interval =>
    match poll_step interval r with
    | .inl interval2 => complete_device_flow rs interval2
    | .inr outcome => (some outcome, interval)

end GitHubAuthService

namespace AuthenticationManager

open GitHubAuthService

/-- The upsert inside `AuthenticationManager::save_token`: update the first
`"github-copilot"` entry in place, else append a new entry with
`show_in_tray = true`. -/
def upsert_copilot : List ProviderConfig → String → List ProviderConfig
  | [], token =>
    [{ defaultConfig with
        provider_id := "github-copilot"
        api_key := token
        show_in_tray := true }]
  | c :: cs, token =>
    if c.provider_id = "github-copilot" then { c with api_key := token } :: cs
    else c :: upsert_copilot cs token

/-- Model of `AuthenticationManager::save_token`: upsert the token into the loaded
config list and persist it; `saveRes` is the outcome of the external
`ConfigLoader::save_config` call.  On a save error the persisted list is
unchanged and the error is returned. -/
def save_token (configs : List ProviderConfig) (token : String)
    (saveRes : Except String Unit) : Except String (List ProviderConfig) :=
  match saveRes with
  | .ok _ => .ok (upsert_copilot configs token)
  | .error e => .error e

/-- Model of `AuthenticationManager::initialize_from_config`: find the first config
with `provider_id == "github-copilot"`; when it exists with a non-empty
`api_key`, load that key into the auth service's in-memory token; otherwise
leave the token state unchanged. -/
def initialize_from_config (token : Option String)
    (configs : List ProviderConfig) : Option String :=
  match configs.find? (fun c => c.provider_id = "github-copilot") with
  | some copilot_config =>
    if copilot_config.api_key ≠ "" then
      initialize_token token copilot_config.api_key
    else token
  | none => token

/-- Model of `AuthenticationManager::wait_for_login` given the terminal outcome of
`complete_device_flow`: on success, persist via `save_token` (propagating a
save error with `?`) and return `Ok(true)`; on any flow failure, log and
return `Ok(false)`.  The second component is the resulting persisted config
list. -/
def wait_for_login (outcome : FlowOutcome) (configs : List ProviderConfig)
    (saveRes : Except String Unit) :
    Except String Bool × List ProviderConfig :=
  match outcome with
  | .success token =>
    match save_token configs token saveRes with
    | .ok configs2 => (.ok true, configs2)
    | .error e => (.error e, configs)
  | .failure _ => (.ok false, configs)

/-- Model of `AuthenticationManager::poll_for_token` given the result of the single
underlying poll: on `Token`, attempt `save_token`, logging (and discarding)
any save error; always return the underlying poll result.  The second
component is the resulting persisted config list. -/
def poll_for_token (configs : List ProviderConfig) (result : TokenPollResult)
    (saveRes : Except String Unit) :
    TokenPollResult × List ProviderConfig :=
  match result with
  | .Token t =>
    match save_token configs t saveRes with
    | .ok configs2 => (result, configs2)
    | .error _ => (result, configs)
  | _ => (result, configs)

/-- Model of `AuthenticationManager::logout`: clear the in-memory token; then, when a
`"github-copilot"` entry exists, clear its `api_key` in place and persist
(propagating a save error); otherwise a successful no-op.  Returns the
result, the new in-memory token, and the persisted configs. -/
def logout (token : Option String) (configs : List ProviderConfig)
    (saveRes : Except String Unit) :
    Except String Unit × Option String × List ProviderConfig :=
  let token2 := logout_memory token
  if (configs.find? (fun c => c.provider_id = "github-copilot")).isSome then
    let configs2 :=
      configs.map fun c =>
        if c.provider_id = "github-copilot" then { c with api_key := "" } else c
    match saveRes with
    | .ok _ => (.ok (), token2, configs2)
    | .error e => (.error e, token2, configs)
  else (.ok (), token2, configs)

end AuthenticationManager

/-! ## config.rs (not in the available source): ProviderManager -/

namespace ProviderManager

/-- Outcome of one provider's fetch task inside `get_all_usage`:
`ok records` = the provider call returned normally, `failed msg` = it
failed, `timeout` = it exceeded its per-provider deadline. -/
inductive FetchOutcome
  | ok (records : List ProviderUsage)
  | failed (msg : String)
  | timeout
deriving DecidableEq, Repr

/-- The degraded record substituted for a failed or timed-out provider
(spec §4.2/§7: `is_available=false` plus the failure description). -/
def degraded_record (config : ProviderConfig) (msg : String) : ProviderUsage :=
  { defaultUsage with
      provider_id := config.provider_id
      provider_name := config.provider_id
      is_available := false
      description := msg }

/-- Modelled from the spec: `config.rs` (`ProviderManager::get_all_usage`) is
not in the available source.  Per spec §4.2: one fetch per configured
provider, merged in encounter order; a failed or timed-out fetch degrades to
one `is_available=false` record instead of propagating; the aggregate call
itself has no error channel. -/
def get_all_usage (configs : List ProviderConfig)
    (outcome : ProviderConfig → FetchOutcome) : List ProviderUsage :=
  (configs.map fun c =>
    match outcome c with
    | .ok records => records
    | .failed msg => [degraded_record c msg]
    | .timeout => [degraded_record c "Timeout"]).flatten

end ProviderManager

/-! ## Common concrete inputs -/

/-- A config with the given id and an empty `api_key`. -/
def emptyKeyCfg (pid : String) : ProviderConfig :=
  { defaultConfig with provider_id := pid }

/-- A config with the given id and `api_key`. -/
def keyedCfg (pid key : String) : ProviderConfig :=
  { defaultConfig with provider_id := pid, api_key := key }

/-- A `"github-copilot"` config entry holding the given token (the shape
`save_token` appends). -/
def copilotCfg (t : String) : ProviderConfig :=
  { defaultConfig with
      provider_id := "github-copilot"
      api_key := t
      show_in_tray := true }

/-! # Theorems -/

/-! ## Helper lemmas (shared) -/

theorem find?_eq_head?_filter {α : Type} (p : α → Bool) (l : List α) :
    l.find? p = (l.filter p).head? := by
  induction l with
  | nil => rfl
  | cons a t ih =>
    by_cases h : p a
    · simp [List.find?, List.filter, h]
    · simp only [List.find?, List.filter, h]
      exact ih

theorem find?_upsert_copilot (configs : List ProviderConfig) (t : String) :
    ((AuthenticationManager.upsert_copilot configs t).find?
        (fun c => c.provider_id = "github-copilot")).map (fun c => c.api_key)
      = some t := by
  induction configs with
  | nil => simp [AuthenticationManager.upsert_copilot, List.find?]
  | cons c cs ih =>
    by_cases h : c.provider_id = "github-copilot"
    · simp [AuthenticationManager.upsert_copilot, h, List.find?]
    · simp only [AuthenticationManager.upsert_copilot, if_neg h, List.find?,
        decide_eq_true_eq, h, decide_False]
      exact ih

theorem utilization_le_100 (used total : ℚ) :
    min (if total > 0 then used / total * 100 else 0) 100 ≤ 100 :=
  min_le_right _ _

theorem utilization_nonneg (used total : ℚ) (h : 0 ≤ used) :
    0 ≤ min (if total > 0 then used / total * 100 else 0) 100 := by
  refine le_min ?_ (by norm_num)
  split
  · next htot => exact mul_nonneg (div_nonneg h htot.le) (by norm_num)
  · exact le_refl 0

/-! ## C1 — missing-credential handling across providers -/

/-- Claim C1 counterexample: with an empty `api_key`, `CodexProvider`
returns the empty list (not exactly one `is_available=false` record), and
`CloudCodeProvider`'s result depends on the outcome of the external `gcloud`
command (so an external command is attempted).  This refutes the claim as
stated. -/
theorem codex_cloudcode_refute_missing_key_claim :
    CodexProvider.get_usage (emptyKeyCfg "codex") = []
    ∧ (CodexProvider.get_usage (emptyKeyCfg "codex")).length ≠ 1
    ∧ CloudCodeProvider.get_usage (emptyKeyCfg "cloud-code")
          (.output true "")
        ≠ CloudCodeProvider.get_usage (emptyKeyCfg "cloud-code")
          .commandError := by
  refine ⟨rfl, by decide, ?_⟩
  intro h
  have := congrArg (fun l => (l.headD defaultUsage).is_available) h
  simp [CloudCodeProvider.get_usage, emptyKeyCfg, defaultConfig] at this

/-- Claim C1 (amended): for the network-backed providers that require a key
(DeepSeek, MiniMax, Synthetic, GenericPayAsYouGo), an empty `api_key` yields
exactly one record with `is_available=false` and a description mentioning
the missing key, and the result does not depend on the network outcome (no
network call is consulted).  `CodexProvider` instead returns an empty list,
and `CloudCodeProvider` falls back to the external `gcloud` command. -/
theorem missing_key_single_record_amended (cfg : ProviderConfig)
    (h : cfg.api_key = "") :
    (∀ net, DeepSeekProvider.get_usage cfg net
      = [DeepSeekProvider.record false "API Key missing"])
    ∧ (∀ net, MinimaxProvider.get_usage cfg net
      = [MinimaxProvider.record false "API Key missing"])
    ∧ (∀ net, SyntheticProvider.get_usage cfg net
      = [SyntheticProvider.record false "API Key not found"])
    ∧ (∀ net, GenericPayAsYouGoProvider.get_usage cfg net
      = [GenericPayAsYouGoProvider.record cfg false "API Key not found"]) := by
  refine ⟨fun net => ?_, fun net => ?_, fun net => ?_, fun net => ?_⟩ <;>
    simp [DeepSeekProvider.get_usage, MinimaxProvider.get_usage,
      SyntheticProvider.get_usage, GenericPayAsYouGoProvider.get_usage, h]

/-- Witness for C1 (amended) at an explicit empty-key config and a concrete
network outcome. -/
theorem missing_key_single_record_amended_witness :
    (emptyKeyCfg "deepseek").api_key = ""
    ∧ DeepSeekProvider.get_usage (emptyKeyCfg "deepseek") .connError
      = [DeepSeekProvider.record false "API Key missing"] :=
  ⟨rfl, (missing_key_single_record_amended (emptyKeyCfg "deepseek") rfl).1 .connError⟩

/-! ## C2 — aggregation robustness -/

/-- Claim C2: `get_all_usage` has no error channel, and when every configured
provider's fetch fails or times out it still returns exactly one
(`is_available=false`) record per configured provider. -/
theorem get_all_usage_robust (configs : List ProviderConfig)
    (outcome : ProviderConfig → ProviderManager.FetchOutcome)
    (hfail : ∀ c ∈ configs, ∀ recs,
      outcome c ≠ ProviderManager.FetchOutcome.ok recs) :
    (ProviderManager.get_all_usage configs outcome).length = configs.length
    ∧ ∀ c ∈ configs, ∃ rec ∈ ProviderManager.get_all_usage configs outcome,
        rec.provider_id = c.provider_id ∧ rec.is_available = false := by
  induction configs with
  | nil => simp [ProviderManager.get_all_usage]
  | cons c cs ih =>
    have hc := hfail c (by simp)
    have hrest : ∀ c' ∈ cs, ∀ recs,
        outcome c' ≠ ProviderManager.FetchOutcome.ok recs :=
      fun c' hc' => hfail c' (by simp [hc'])
    obtain ⟨ihlen, ihmem⟩ := ih hrest
    have hstep : ProviderManager.get_all_usage (c :: cs) outcome
        = (match outcome c with
            | .ok records => records
            | .failed msg => [ProviderManager.degraded_record c msg]
            | .timeout => [ProviderManager.degraded_record c "Timeout"])
          ++ ProviderManager.get_all_usage cs outcome := by
      simp [ProviderManager.get_all_usage]
    match hout : outcome c with
    | .ok recs => exact absurd hout (hc recs)
    | .failed msg =>
      rw [hstep, hout]
      constructor
      · simpa using ihlen
      · intro c' hc'
        rcases List.mem_cons.mp hc' with h' | h'
        · exact ⟨ProviderManager.degraded_record c msg, by simp,
            by simp [ProviderManager.degraded_record, h']⟩
        · obtain ⟨rec, hrec, hprop⟩ := ihmem c' h'
          exact ⟨rec, by simp [hrec], hprop⟩
    | .timeout =>
      rw [hstep, hout]
      constructor
      · simpa using ihlen
      · intro c' hc'
        rcases List.mem_cons.mp hc' with h' | h'
        · exact ⟨ProviderManager.degraded_record c "Timeout", by simp,
            by simp [ProviderManager.degraded_record, h']⟩
        · obtain ⟨rec, hrec, hprop⟩ := ihmem c' h'
          exact ⟨rec, by simp [hrec], hprop⟩

/-- Witness for C2 at two concrete configs whose fetches all time out. -/
theorem get_all_usage_robust_witness :
    (ProviderManager.get_all_usage [emptyKeyCfg "deepseek", emptyKeyCfg "codex"]
        (fun _ => .timeout)).length = 2
    ∧ ∀ c ∈ [emptyKeyCfg "deepseek", emptyKeyCfg "codex"],
        ∃ rec ∈ ProviderManager.get_all_usage
            [emptyKeyCfg "deepseek", emptyKeyCfg "codex"] (fun _ => .timeout),
          rec.provider_id = c.provider_id ∧ rec.is_available = false :=
  get_all_usage_robust [emptyKeyCfg "deepseek", emptyKeyCfg "codex"]
    (fun _ => .timeout)
    (fun _ _ _recs h => ProviderManager.FetchOutcome.noConfusion h)

/-! ## C3 — completeDeviceFlow poll-result behavior -/

/-- Claim C3: in `complete_device_flow`'s loop, `Pending` continues with the
interval unchanged and `SlowDown` continues with the interval increased by
the fixed +5 step (neither terminates on its own); `Token` terminates with
success (and `wait_for_login` persists the token via the upsert);
`Expired`, `AccessDenied` and `Error` terminate immediately with failure,
never consulting any later poll result. -/
theorem complete_device_flow_step_behavior :
    (∀ rs interval, GitHubAuthService.complete_device_flow (.Pending :: rs) interval
      = GitHubAuthService.complete_device_flow rs interval)
    ∧ (∀ rs interval, GitHubAuthService.complete_device_flow (.SlowDown :: rs) interval
      = GitHubAuthService.complete_device_flow rs (interval + 5))
    ∧ (∀ rs interval t, GitHubAuthService.complete_device_flow (.Token t :: rs) interval
      = (some (.success t), interval))
    ∧ (∀ rs interval, GitHubAuthService.complete_device_flow (.Expired :: rs) interval
      = (some (.failure .expired), interval))
    ∧ (∀ rs interval, GitHubAuthService.complete_device_flow (.AccessDenied :: rs) interval
      = (some (.failure .accessDenied), interval))
    ∧ (∀ rs interval msg, GitHubAuthService.complete_device_flow (.Error msg :: rs) interval
      = (some (.failure (.protocolError msg)), interval))
    ∧ (∀ t configs,
        AuthenticationManager.wait_for_login (.success t) configs (.ok ())
          = (.ok true, AuthenticationManager.upsert_copilot configs t)
        ∧ ((AuthenticationManager.upsert_copilot configs t).find?
              (fun c => c.provider_id = "github-copilot")).map (fun c => c.api_key)
          = some t) := by
  refine ⟨fun rs i => rfl, fun rs i => rfl, fun rs i t => rfl, fun rs i => rfl,
    fun rs i => rfl, fun rs i msg => rfl, fun t configs => ⟨rfl, ?_⟩⟩
  exact find?_upsert_copilot configs t

/-! ## C4 — provider-local error handling (code bug in DeepSeek) -/

/-- Claim C4 evaluated at the failing input: `DeepSeekProvider::get_usage`
with a non-empty key and a non-success HTTP status returns one record whose
description names the failure class but whose `is_available` is `true` —
the source sets `is_available: true` in that branch, contradicting the
claimed (and sibling-provider) `is_available=false` failure representation. -/
theorem deepseek_api_error_marks_available :
    DeepSeekProvider.get_usage (keyedCfg "deepseek" "sk-test")
        (.response false "401 Unauthorized" .parseError)
      = [{ DeepSeekProvider.record true "API Error (401 Unauthorized)" with
            usage_percentage := 0
            is_quota_based := false }]
    ∧ (DeepSeekProvider.get_usage (keyedCfg "deepseek" "sk-test")
          (.response false "401 Unauthorized" .parseError)).all
        (fun rec => rec.is_available) = true := by
  exact ⟨rfl, rfl⟩

/-! ## C5 — terminal failure reasons are not distinguishable -/

/-- Claim C5 counterexample: two distinct terminal failure reasons (expired
vs. denied) produce identical `wait_for_login` results, so the caller cannot
distinguish them.  This refutes the claim as stated. -/
theorem wait_for_login_conflates_failures :
    AuthenticationManager.wait_for_login (.failure .expired) [] (.ok ())
      = AuthenticationManager.wait_for_login (.failure .accessDenied) [] (.ok ())
    ∧ GitHubAuthService.FlowFailure.expired ≠ GitHubAuthService.FlowFailure.accessDenied :=
  ⟨rfl, by decide⟩

/-- Claim C5 (amended): `wait_for_login` maps every terminal polling failure
— whatever its reason — to `Ok(false)` with the config store untouched; the
specific reason is only logged, so the caller can distinguish success
(`Ok(true)`) from failure (`Ok(false)`) but not one failure reason from
another. -/
theorem wait_for_login_failures_all_ok_false
    (r : GitHubAuthService.FlowFailure) (configs : List ProviderConfig)
    (saveRes : Except String Unit) :
    AuthenticationManager.wait_for_login (.failure r) configs saveRes
      = (.ok false, configs) := rfl

/-! ## C6 — initialize_from_config -/

/-- Claim C6: when the persisted list's (unique, per the spec's `provider_id`
invariant) `"github-copilot"` entry has a non-empty key,
`initialize_from_config` loads it — `is_authenticated()` becomes true and
`get_current_token()` returns that key; when no entry with that id has a
non-empty key (in particular for the empty list), the call leaves the token
state unchanged, so `is_authenticated()` remains false. -/
theorem initialize_from_config_loads_copilot_token
    (configs : List ProviderConfig) (cfg : ProviderConfig)
    (token0 : Option String) :
    (configs.filter (fun c => c.provider_id = "github-copilot") = [cfg] →
      cfg.api_key ≠ "" →
      AuthenticationManager.initialize_from_config token0 configs = some cfg.api_key
      ∧ GitHubAuthService.is_authenticated
          (AuthenticationManager.initialize_from_config token0 configs) = true
      ∧ GitHubAuthService.get_current_token
          (AuthenticationManager.initialize_from_config token0 configs)
        = some cfg.api_key)
    ∧ ((∀ c ∈ configs, c.provider_id = "github-copilot" → c.api_key = "") →
      AuthenticationManager.initialize_from_config token0 configs = token0
      ∧ GitHubAuthService.is_authenticated
          (AuthenticationManager.initialize_from_config none configs) = false) := by
  constructor
  · intro hfilter hkey
    have hfind : configs.find? (fun c => c.provider_id = "github-copilot")
        = some cfg := by
      rw [find?_eq_head?_filter, hfilter]
      rfl
    have : AuthenticationManager.initialize_from_config token0 configs
        = some cfg.api_key := by
      simp [AuthenticationManager.initialize_from_config, hfind, hkey,
        GitHubAuthService.initialize_token]
    exact ⟨this, by simp [this, GitHubAuthService.is_authenticated],
      by simp [this, GitHubAuthService.get_current_token]⟩
  · intro hempty
    have hgen : ∀ token1 : Option String,
        AuthenticationManager.initialize_from_config token1 configs = token1 := by
      intro token1
      unfold AuthenticationManager.initialize_from_config
      match hfind : configs.find? (fun c => c.provider_id = "github-copilot") with
      | none => rw [hfind]
      | some c =>
        have hmem := List.mem_of_find?_eq_some hfind
        have hpid : c.provider_id = "github-copilot" := by
          have := List.find?_some hfind
          simpa using this
        rw [hfind]
        simp [hempty c hmem hpid]
    exact ⟨hgen token0, by
      simp [hgen none, GitHubAuthService.is_authenticated]⟩

/-- Witness for C6: the spec's own test vectors — a singleton
`github-copilot` config with token `"tok123"` authenticates with that token;
the empty config list leaves the manager unauthenticated. -/
theorem initialize_from_config_loads_copilot_token_witness :
    (AuthenticationManager.initialize_from_config none [copilotCfg "tok123"]
        = some (copilotCfg "tok123").api_key
      ∧ GitHubAuthService.is_authenticated
          (AuthenticationManager.initialize_from_config none [copilotCfg "tok123"]) = true
      ∧ GitHubAuthService.get_current_token
          (AuthenticationManager.initialize_from_config none [copilotCfg "tok123"])
        = some (copilotCfg "tok123").api_key)
    ∧ (AuthenticationManager.initialize_from_config none ([] : List ProviderConfig)
        = none
      ∧ GitHubAuthService.is_authenticated
          (AuthenticationManager.initialize_from_config none
            ([] : List ProviderConfig)) = false) :=
  ⟨(initialize_from_config_loads_copilot_token [copilotCfg "tok123"]
      (copilotCfg "tok123") none).1 (by decide) (by decide),
    (initialize_from_config_loads_copilot_token ([] : List ProviderConfig)
      (copilotCfg "tok123") none).2 (by simp)⟩

/-! ## C7 — usage_percentage clamping -/

/-- Claim C7 counterexample: a backend returning a negative `used` with a
positive `total` produces a negative `usage_percentage` — the code only
clamps from above with `.min(100.0)`.  Shown on MiniMax's successful-parse
path (`tokens_used = -50`, `tokens_limit = 100` gives `-50`). -/
theorem usage_percentage_negative_counterexample :
    MinimaxProvider.get_usage (keyedCfg "minimax" "k")
        (.response true "200 OK" (.parsed (some (-50, 100))))
      = [MinimaxProvider.success_record (-50) 100]
    ∧ (MinimaxProvider.success_record (-50) 100).usage_percentage < 0 := by
  constructor
  · rfl
  · norm_num [MinimaxProvider.success_record]

/-- Claim C7 (amended): on the successful-parse paths of MiniMax, Synthetic
and GenericPayAsYouGo, `usage_percentage` is clamped from above to at most
100 for every `used`/`total` (including negative or zero totals, which give
0), and lies within 0–100 whenever the backend's `used` value is
nonnegative; a negative `used` with positive `total` escapes the clamp from
below. -/
theorem usage_percentage_clamped_above_amended (used total : ℚ) :
    ((MinimaxProvider.success_record used total).usage_percentage ≤ 100
      ∧ (∀ r, (SyntheticProvider.success_record ⟨total, used, r⟩).usage_percentage ≤ 100)
      ∧ (∀ cfg url pt nrt,
          (GenericPayAsYouGoProvider.success_record cfg url total used pt nrt).usage_percentage
            ≤ 100))
    ∧ (0 ≤ used →
      0 ≤ (MinimaxProvider.success_record used total).usage_percentage
      ∧ (∀ r, 0 ≤ (SyntheticProvider.success_record ⟨total, used, r⟩).usage_percentage)
      ∧ (∀ cfg url pt nrt,
          0 ≤ (GenericPayAsYouGoProvider.success_record cfg url total used pt nrt).usage_percentage)) := by
  refine ⟨⟨?_, fun r => ?_, fun cfg url pt nrt => ?_⟩,
    fun h => ⟨?_, fun r => ?_, fun cfg url pt nrt => ?_⟩⟩ <;>
    simp only [MinimaxProvider.success_record, SyntheticProvider.success_record,
      GenericPayAsYouGoProvider.success_record] <;>
    first
      | exact utilization_le_100 used total
      | exact utilization_nonneg used total h

/-- Witness for C7 (amended) at `used = 5`, `total = 10`. -/
theorem usage_percentage_clamped_above_amended_witness :
    (0 : ℚ) ≤ 5
    ∧ (0 ≤ (MinimaxProvider.success_record 5 10).usage_percentage
      ∧ (∀ r, 0 ≤ (SyntheticProvider.success_record ⟨10, 5, r⟩).usage_percentage)
      ∧ (∀ cfg url pt nrt,
          0 ≤ (GenericPayAsYouGoProvider.success_record cfg url 10 5 pt nrt).usage_percentage)) :=
  ⟨by norm_num, (usage_percentage_clamped_above_amended 5 10).2 (by norm_num)⟩

/-! ## C10 — poll_for_token survives save failure -/

/-- Claim C10: `poll_for_token` always returns the underlying poll result;
in particular on `Token(t)` with a failing `save_token`, the caller still
observes `Token(t)` while the persisted config list is unchanged (no
durably saved token): the persistence error is only logged. -/
theorem poll_for_token_returns_result_despite_save_failure
    (configs : List ProviderConfig) (result : TokenPollResult)
    (saveRes : Except String Unit) :
    (AuthenticationManager.poll_for_token configs result saveRes).1 = result
    ∧ (∀ t e, AuthenticationManager.poll_for_token configs (.Token t) (.error e)
        = (.Token t, configs)) := by
  constructor
  · cases result <;> cases saveRes <;> rfl
  · intro t e
    rfl

/-! ## Privacy helper lemmas -/

theorem splitWsAux_eq_of_no_ws (s : List Nat) (acc : List Nat)
    (h : ∀ b ∈ s, isWsByte b = false) :
    splitWsAux s acc = if acc = [] ∧ s = [] then [] else [acc.reverse ++ s] := by
  induction s generalizing acc with
  | nil => by_cases hacc : acc = [] <;> simp [splitWsAux, hacc]
  | cons b t ih =>
    have hb : isWsByte b = false := h b (by simp)
    have ht : ∀ x ∈ t, isWsByte x = false := fun x hx => h x (by simp [hx])
    simp only [splitWsAux, hb, Bool.false_eq_true, if_false]
    rw [ih (b :: acc) ht]
    simp

theorem split_whitespace_single (s : List Nat) (hne : s ≠ [])
    (h : ∀ b ∈ s, isWsByte b = false) : split_whitespace s = [s] := by
  unfold split_whitespace
  rw [splitWsAux_eq_of_no_ws s [] h]
  simp [hne]

theorem replaceSubAux_nil {α : Type} [DecidableEq α] (pat rep : List α)
    (fuel : Nat) (h : pat ≠ []) : replaceSubAux pat rep fuel [] = [] := by
  cases fuel with
  | zero => rfl
  | succ n =>
    match pat, h with
    | a :: l, _ => rfl

theorem replaceSub_self {α : Type} [DecidableEq α] (pat rep : List α)
    (h : pat ≠ []) : replaceSub pat pat rep = rep := by
  unfold replaceSub
  rw [if_neg h]
  match pat, h with
  | a :: l, h =>
    have hpre : (a :: l).isPrefixOf (a :: l) = true := by
      simp [List.isPrefixOf_iff_prefix]
    simp [replaceSubAux, hpre, List.drop_length,
      replaceSubAux_nil (a :: l) rep l.length h]

theorem splitOnByte_of_not_mem (b : Nat) (d : List Nat) (h : b ∉ d) :
    splitOnByte b d = [d] := by
  induction d with
  | nil => rfl
  | cons c t ih =>
    have hc : c ≠ b := fun e => h (by simp [e])
    have ht : b ∉ t := fun e => h (by simp [e])
    simp [splitOnByte, hc, ih ht]

theorem splitOnByte_append (l d : List Nat) (hl : 64 ∉ l) (hd : 64 ∉ d) :
    splitOnByte 64 (l ++ 64 :: d) = [l, d] := by
  induction l with
  | nil => simp [splitOnByte, splitOnByte_of_not_mem 64 d hd]
  | cons a t ih =>
    have ha : a ≠ 64 := fun e => hl (by simp [e])
    have ht : 64 ∉ t := fun e => hl (by simp [e])
    simp [splitOnByte, ha, ih ht]

theorem takeWhile_append_not64 (l d : List Nat) (hl : 64 ∉ l) :
    (l ++ 64 :: d).takeWhile (fun b => b ≠ 64) = l := by
  induction l with
  | nil =>
    rw [List.nil_append, List.takeWhile_cons]
    simp
  | cons a t ih =>
    have ha : a ≠ 64 := fun e => hl (by simp [e])
    have ht : 64 ∉ t := fun e => hl (by simp [e])
    rw [List.cons_append, List.takeWhile_cons, if_pos (by simpa using ha)]
    rw [ih ht]

theorem dropWhile_append_not64 (l d : List Nat) (hl : 64 ∉ l) :
    (l ++ 64 :: d).dropWhile (fun b => b ≠ 64) = 64 :: d := by
  induction l with
  | nil =>
    rw [List.nil_append, List.dropWhile_cons]
    simp
  | cons a t ih =>
    have ha : a ≠ 64 := fun e => hl (by simp [e])
    have ht : 64 ∉ t := fun e => hl (by simp [e])
    rw [List.cons_append, List.dropWhile_cons, if_pos (by simpa using ha)]
    exact ih ht

theorem boundary_of_ascii (l : List Nat) (i : Nat) (hi : i < l.length)
    (hascii : ∀ b ∈ l, b < 128) : is_char_boundary l i = true := by
  unfold is_char_boundary
  by_cases h0 : i = 0
  · simp [h0]
  · rw [if_neg h0, if_neg (by omega)]
    have hb : l.get ⟨i, hi⟩ < 128 := hascii _ (List.get_mem l i hi)
    have hcont : isContinuation (l.get ⟨i, hi⟩) = false := by
      unfold isContinuation
      rw [decide_eq_false (show ¬ (128 ≤ l.get ⟨i, hi⟩) by omega)]
      rfl
    rw [List.get?_eq_get hi]
    show (!(isContinuation (l.get ⟨i, hi⟩))) = true
    rw [hcont]
    rfl

theorem mask_single_email_eq_spec (l d : List Nat) (hl : 64 ∉ l) (hd : 64 ∉ d)
    (hascii : ∀ b ∈ l, b < 128) :
    mask_single_email (l ++ 64 :: d) = some (spec_mask_token (l ++ 64 :: d)) := by
  unfold mask_single_email
  rw [splitOnByte_append l d hl hd]
  simp only [spec_mask_token, takeWhile_append_not64 l d hl,
    dropWhile_append_not64 l d hl]
  by_cases hlen : l.length ≤ 2
  · simp [hlen]
  · have h1 : sliceTo l 1 = some (l.take 1) := by
      unfold sliceTo
      rw [boundary_of_ascii l 1 (by omega) hascii]
      simp
    have h2 : sliceFrom l (l.length - 1) = some (l.drop (l.length - 1)) := by
      unfold sliceFrom
      rw [boundary_of_ascii l (l.length - 1) (by omega) hascii]
      simp
    simp [hlen, h1, h2]

theorem spec_mask_emails_single (x : List Nat) (hne : x ≠ [])
    (hws : ∀ b ∈ x, isWsByte b = false)
    (h64 : x.contains 64 = true) (h46 : x.contains 46 = true) :
    spec_mask_emails x = spec_mask_token x := by
  unfold spec_mask_emails
  rw [split_whitespace_single x hne hws]
  have hcond : (x.contains 64 && x.contains 46) = true := by
    rw [h64, h46]
    rfl
  simp only [List.map_cons, List.map_nil, hcond, if_true]
  simp [List.intercalate]

theorem mask_content_single_email_token (l d : List Nat)
    (hl : 64 ∉ l) (hd : 64 ∉ d)
    (hdot : (l ++ 64 :: d).contains 46 = true)
    (hws : ∀ b ∈ l ++ 64 :: d, isWsByte b = false)
    (hascii : ∀ b ∈ l, b < 128) :
    mask_content (some (l ++ 64 :: d)) none
      = some (some (spec_mask_token (l ++ 64 :: d))) := by
  set x := l ++ 64 :: d with hx
  have hxne : x ≠ [] := by
    rw [hx]
    cases l <;> simp
  have h64 : x.contains 64 = true := by
    have : (64 : Nat) ∈ x := by simp [hx]
    simpa using this
  have hmask : mask_emails_in_string x = some (spec_mask_token x) := by
    unfold mask_emails_in_string
    rw [split_whitespace_single x hxne hws]
    simp only [List.foldlM, h64, hdot, Bool.and_self, if_true]
    rw [hx, mask_single_email_eq_spec l d hl hd hascii, ← hx]
    simp [replaceSub_self x (spec_mask_token x) hxne]
  have hbody : mask_content_body x = some (spec_mask_token x) := by
    unfold mask_content_body
    rw [h64]
    · exact hmask
  simp [mask_content, hxne, hbody]

/-! ## C8 — email masking -/

/-- The concrete two-email input whose tokens overlap as substrings:
`"a@b.c ya@b.cz"`. -/
def overlapExample : List Nat := asciiBytes "a@b.c ya@b.cz"

/-- Claim C8 counterexample: on `"a@b.c ya@b.cz"` the code's sequential
global substring replacement turns the second token into `"y*@b.cz"`
(the earlier replacement already rewrote its inside), while per-token
local-part masking — the claim's description — yields `"**@b.cz"`.  So the
claim's universal per-token characterization is false as stated. -/
theorem mask_emails_overlap_counterexample :
    mask_content (some overlapExample) none
      ≠ some (some (spec_mask_emails overlapExample))
    ∧ mask_content (some overlapExample) none
      = some (some (asciiBytes "*@b.c y*@b.cz"))
    ∧ spec_mask_emails overlapExample = asciiBytes "*@b.c **@b.cz" := by
  refine ⟨by decide, by decide, by decide⟩

/-- Claim C8 (amended): when the text is a single whitespace-free email
token with exactly one `'@'`, a `'.'`, and an ASCII local part, `mask`
masks exactly the local part (length ≤ 2 → that many asterisks, else
first char + `"..."` + last char) leaving the domain untouched — it agrees
with the spec-worded per-token function; in particular
`mask(Some("test@example.com"), None) = Some("t...t@example.com")`.  For
multi-token texts the source replaces by global substring search, which can
rewrite overlapping tokens differently (see the counterexample). -/
theorem mask_single_email_token_amended (l d : List Nat)
    (hl : 64 ∉ l) (hd : 64 ∉ d)
    (hdot : (l ++ 64 :: d).contains 46 = true)
    (hws : ∀ b ∈ l ++ 64 :: d, isWsByte b = false)
    (hascii : ∀ b ∈ l, b < 128) :
    mask_content (some (l ++ 64 :: d)) none
      = some (some (spec_mask_emails (l ++ 64 :: d)))
    ∧ mask_content (some (asciiBytes "test@example.com")) none
      = some (some (asciiBytes "t...t@example.com")) := by
  constructor
  · have hxne : (l ++ 64 :: d) ≠ [] := by cases l <;> simp
    have h64 : (l ++ 64 :: d).contains 64 = true := by simp
    rw [mask_content_single_email_token l d hl hd hdot hws hascii,
      spec_mask_emails_single (l ++ 64 :: d) hxne hws h64 hdot]
  · decide

/-- Witness for C8 (amended) at the spec's own example
`"test@example.com"`. -/
theorem mask_single_email_token_amended_witness :
    mask_content (some (asciiBytes "test" ++ 64 :: asciiBytes "example.com")) none
      = some (some (spec_mask_emails (asciiBytes "test" ++ 64 :: asciiBytes "example.com")))
    ∧ mask_content (some (asciiBytes "test@example.com")) none
      = some (some (asciiBytes "t...t@example.com")) :=
  mask_single_email_token_amended (asciiBytes "test") (asciiBytes "example.com")
    (by decide) (by decide) (by decide) (by decide) (by decide)

/-! ## C9 — mask_content totality (panic on multi-byte input) -/

/-- Claim C9 evaluated at the failing input: `"éab"` (UTF-8 bytes
`[195, 169, 97, 98]`) makes `mask_content` panic — the generic mask slices
`&s[..1]` but byte index 1 falls inside the two-byte `'é'`, so it is not a
char boundary (`none` models the panic).  The code is therefore not total on
Unicode input, contrary to the claim's intent. -/
theorem mask_content_panics_on_multibyte :
    mask_content (some [195, 169, 97, 98]) none = none
    ∧ is_char_boundary [195, 169, 97, 98] 1 = false := by
  refine ⟨by decide, by decide⟩

end AIC
